import Mathlib

/-!
Shallow embedding of `js/main.js` of the testandtagwebsite repository
(three variants of the same file: `src/js/main.js`, `src/unnamed/part_000`,
`src/unnamed/part_001`).  The DOM is modelled as lists of element records;
class lists follow DOM `classList` semantics (a set: `add` is a no-op when
the class is present, `remove` deletes it); event-listener stores follow
DOM `addEventListener` / `removeEventListener` semantics.
-/

namespace TestAndTag

/-! ## classList semantics -/

/-- DOM `classList.add c`: appends `c` unless already present. -/
def addClass (c : String) (cs : List String) : List String :=
  if c ∈ cs then cs else cs ++ [c]

/-- DOM `classList.remove c`: deletes every occurrence of `c`. -/
def removeClass (c : String) (cs : List String) : List String :=
  cs.filter (fun x => x ≠ c)

/-- DOM `classList.toggle c force`: add when `force`, remove otherwise. -/
def toggleClass (c : String) (force : Bool) (cs : List String) : List String :=
  if force then addClass c cs else removeClass c cs

/-- JS `String(b)` on a boolean. -/
def boolString (b : Bool) : String :=
  if b then "true" else "false"

/-! ## The `on` utility (main.js lines 8-11)

```js
function on(target, type, handler, opts) {
  target.removeEventListener(type, handler, opts);
  target.addEventListener(type, handler, opts);
}
```

A registered listener is identified, per the DOM standard, by its event
type, its callback identity and its capture flag.  `removeEventListener`
removes the first (hence, under the DOM invariant, the only) matching
entry; `addEventListener` appends unless an equal entry is present. -/

structure Listener where
  evType : String
  handler : Nat
  capture : Bool
  deriving DecidableEq, Repr

/-- DOM `removeEventListener`: drop the first entry equal to `l`. -/
def removeEventListener (l : Listener) : List Listener → List Listener
  | [] => []
  | x :: xs => if x = l then xs else x :: removeEventListener l xs

/-- DOM `addEventListener`: append `l` unless an equal entry is registered. -/
def addEventListener (l : Listener) (L : List Listener) : List Listener :=
  if l ∈ L then L else L ++ [l]

/-- The `on` utility: remove then add the listener. -/
def «on» (l : Listener) (L : List Listener) : List Listener :=
  addEventListener l (removeEventListener l L)

/-! ## injectPartial (main.js lines 17-36)

The document is a list of elements; `querySelector sel` returns the index
of the first element matching `sel`.  The fetch outcome is `none` for a
network rejection and `some res` for a settled response; a non-`ok`
response makes the first `then` throw, and both failures land in the
`catch`, which resolves the promise to `false`.  Assigning `outerHTML`
replaces the placeholder element by the parsed fetched markup (`parse`). -/

structure Elem where
  sel : List String
  html : String
  deriving DecidableEq, Repr

structure FetchResponse where
  ok : Bool
  text : String
  deriving DecidableEq, Repr

/-- Result of the settled promise of `injectPartial`: the final document,
how many times the `after` callback ran, and the resolved boolean. -/
structure InjectResult where
  doc : List Elem
  afterCalls : Nat
  value : Bool
  deriving DecidableEq

/-- DOM `document.querySelector`: index of the first matching element. -/
def querySelector (s : String) (doc : List Elem) : Option Nat :=
  doc.findIdx? (fun e => s ∈ e.sel)

/-- The `injectPartial(outletSel, url, after)` function.  `parse` is the
browser's HTML parser (how `outerHTML` assignment turns the fetched text
into an element); `fetchResult` is the outcome of `fetch(url)`; `after` is
the callback, `none` when the argument is not a function. -/
def injectPartial (parse : String → Elem) (outletSel : String)
    (fetchResult : Option FetchResponse) (after : Option (List Elem → List Elem))
    (doc : List Elem) : InjectResult :=
  match querySelector outletSel doc with
  | none => ⟨doc, 0, false⟩
  | some i =>
    match fetchResult with
    | none => ⟨doc, 0, false⟩
    | some res =>
      if res.ok then
        let doc2 := doc.set i (parse res.text)
        match after with
        | some f => ⟨f doc2, 1, true⟩
        | none => ⟨doc2, 0, true⟩
      else ⟨doc, 0, false⟩

/-! ## markActiveNav (part_000 / part_001 lines 80-97)

```js
const current = window.location.pathname.split("/").pop() || "index.html";
...
const href = link.getAttribute("href") || "";
const normalized = href.split("?")[0];
const isHome = normalized === "index.html" && (current === "" || current === "index.html");
if (normalized === current || isHome) { add "is-active" } else { remove "is-active" }
```
-/

structure NavLink where
  href : Option String
  classes : List String
  deriving DecidableEq, Repr, Inhabited

/-- `window.location.pathname.split("/").pop() || "index.html"`: the last
path segment, with the empty segment replaced by `index.html`. -/
def currentSegment (pathname : String) : String :=
  let lastSeg := (pathname.splitOn "/").getLastD ""
  if lastSeg = "" then "index.html" else lastSeg

/-- `(link.getAttribute("href") || "").split("?")[0]`. -/
def navNormalized (href : Option String) : String :=
  ((href.getD "").splitOn "?").headD ""

/-- Body of the `links.forEach` in `markActiveNav`. -/
def markActiveNavLink (current : String) (link : NavLink) : NavLink :=
  let normalized := navNormalized link.href
  let isHome := normalized = "index.html" ∧ (current = "" ∨ current = "index.html")
  if normalized = current ∨ isHome then
    { link with classes := addClass "is-active" link.classes }
  else
    { link with classes := removeClass "is-active" link.classes }

/-- `markActiveNav()`: returns early when no `[data-header]` element exists,
otherwise rewrites every `.nav-link` of the header. -/
def markActiveNav (headerPresent : Bool) (pathname : String)
    (links : List NavLink) : List NavLink :=
  if headerPresent then links.map (markActiveNavLink (currentSegment pathname))
  else links

/-- Effect of the boot sequence (part_000 lines 163-170) on the header's
nav links: when the header partial was injected, the `after` callback ran
`initHeaderBehaviors(); markActiveNav()`; otherwise the inline fallback
`bootInlineHeaderIfPresent` runs the same two calls when a `[data-header]`
element is present. -/
def bootHeaderLinks (injected headerPresent : Bool) (pathname : String)
    (links : List NavLink) : List NavLink :=
  if injected then markActiveNav headerPresent pathname links
  else if headerPresent then markActiveNav headerPresent pathname links
  else links

/-! ## Mobile menu toggle (main.js lines 58-66)

```js
on(mobileBtn, "click", () => {
  const open = mobileMenu.getAttribute("data-open") === "true";
  mobileMenu.setAttribute("data-open", String(!open));
  mobileMenu.classList.toggle("pointer-events-none", open);
  mobileMenu.classList.toggle("opacity-0", open);
  mobileBtn.setAttribute("aria-expanded", String(!open));
});
```
-/

structure MenuState where
  dataOpen : Option String
  ariaExpanded : Option String
  menuClasses : List String
  deriving DecidableEq, Repr

/-- `mobileMenu.getAttribute("data-open") === "true"`. -/
def menuIsOpen (s : MenuState) : Bool :=
  s.dataOpen = some "true"

/-- The click handler bound on the mobile button. -/
def clickToggle (s : MenuState) : MenuState :=
  let opn := menuIsOpen s
  { dataOpen := some (boolString (!opn)),
    ariaExpanded := some (boolString (!opn)),
    menuClasses := toggleClass "opacity-0" opn
      (toggleClass "pointer-events-none" opn s.menuClasses) }

/-- `initHeaderBehaviors` binds the click handler only when both
`[data-mobile-btn]` and `[data-mobile-menu]` exist in the document. -/
def initHeaderBehaviors (btnPresent menuPresent : Bool) :
    Option (MenuState → MenuState) :=
  if btnPresent && menuPresent then some clickToggle else none

/-- State after a sequence of `n` click events on the mobile button. -/
def applyClicks : Nat → MenuState → MenuState
  | 0, s => s
  | n + 1, s => clickToggle (applyClicks n s)

/-! ## Reveal on scroll (part_000 lines 101-136)

`RevealState` carries the `[data-reveal]` elements, the set of targets the
`IntersectionObserver` currently observes, and the `window.__revealObserver`
guard.  `initRevealOnScroll` follows part_000: early return when the guard
is set or no `[data-reveal]` element exists; with reduced motion every
element is made visible immediately; otherwise each element gets its
staggered `transitionDelay` style and is observed, and the guard is set. -/

structure RevealElem where
  id : Nat
  hasDataReveal : Bool
  revealDelayAttr : Option String
  transitionDelay : String
  classes : List String
  deriving DecidableEq, Repr

structure RevealState where
  elems : List RevealElem
  observed : List Nat
  observerSet : Bool
  deriving DecidableEq, Repr

/-- An `IntersectionObserverEntry`: the target element's id and whether it
intersects the viewport. -/
structure OEntry where
  target : Nat
  isIntersecting : Bool
  deriving DecidableEq, Repr

def digitsToNat (ds : List Char) : Nat :=
  ds.foldl (fun a c => a * 10 + (c.toNat - 48)) 0

/-- JS `parseInt(s, 10)`: skip leading whitespace, optional sign, then the
longest digit run; `none` models `NaN`. -/
def jsParseInt10 (s : String) : Option Int :=
  let cs := s.data.dropWhile (fun c => c == ' ' || c == '\t' || c == '\n' || c == '\r')
  match cs with
  | '-' :: rest =>
    let ds := rest.takeWhile Char.isDigit
    if ds.isEmpty then none else some (-(digitsToNat ds : Int))
  | '+' :: rest =>
    let ds := rest.takeWhile Char.isDigit
    if ds.isEmpty then none else some ((digitsToNat ds : Int))
  | _ =>
    let ds := cs.takeWhile Char.isDigit
    if ds.isEmpty then none else some ((digitsToNat ds : Int))

/-- `const delay = delayAttr ? parseInt(delayAttr, 10) : Math.min(index * 70, 280)`
rendered as the template literal `delay + "ms"` (a `NaN` renders as `NaNms`);
a `null` or empty attribute is falsy and selects the automatic stagger. -/
def delayString (index : Nat) (attr : Option String) : String :=
  let auto : Int := min ((index : Int) * 70) 280
  match attr with
  | some a =>
    if a = "" then toString auto ++ "ms"
    else
      match jsParseInt10 a with
      | some n => toString n ++ "ms"
      | none => "NaNms"
  | none => toString auto ++ "ms"

/-- The `elements.forEach((el, index) => ...)` loop assigning
`el.style.transitionDelay`; the counter advances along the
`[data-reveal]` elements only, matching their index in `elements`. -/
def applyDelays : Nat → List RevealElem → List RevealElem
  | _, [] => []
  | k, el :: rest =>
    if el.hasDataReveal then
      { el with transitionDelay := delayString k el.revealDelayAttr } :: applyDelays (k + 1) rest
    else
      el :: applyDelays k rest

/-- Body of the reduced-motion loop: `el.classList.add("is-visible")` on a
`[data-reveal]` element, identity elsewhere. -/
def revealVis (el : RevealElem) : RevealElem :=
  if el.hasDataReveal then { el with classes := addClass "is-visible" el.classes } else el

/-- Reduced-motion path: `elements.forEach((el) => el.classList.add("is-visible"))`. -/
def revealAllVisible (elems : List RevealElem) : List RevealElem :=
  elems.map revealVis

/-- `initRevealOnScroll()` as a transformer of the page state. -/
def initRevealOnScroll (reduced : Bool) (s : RevealState) : RevealState :=
  if s.observerSet then s
  else
    let elements := s.elems.filter (fun el => el.hasDataReveal)
    if elements.isEmpty then s
    else if reduced then { s with elems := revealAllVisible s.elems }
    else
      { elems := applyDelays 0 s.elems,
        observed := elements.map (fun el => el.id),
        observerSet := true }

/-- One entry of the observer callback: an intersecting entry adds
`is-visible` to its target and unobserves it; a non-intersecting entry
does nothing. -/
def revealStep (s : RevealState) (e : OEntry) : RevealState :=
  if e.isIntersecting then
    { s with
      elems := s.elems.map (fun el =>
        if el.id = e.target then { el with classes := addClass "is-visible" el.classes } else el),
      observed := s.observed.filter (fun i => i ≠ e.target) }
  else s

/-- The `IntersectionObserver` callback: `entries.forEach(...)`. -/
def revealCallback (entries : List OEntry) (s : RevealState) : RevealState :=
  entries.foldl revealStep s

/-- Every element whose id is `tgt` carries the `is-visible` class. -/
def revealedAt (tgt : Nat) (s : RevealState) : Prop :=
  ∀ y ∈ s.elems, y.id = tgt → "is-visible" ∈ y.classes

/-! ## initFooterYear (main.js lines 135-139) -/

structure YearElem where
  isJsYear : Bool
  text : String
  deriving DecidableEq, Repr, Inhabited

/-- `document.querySelectorAll(".js-year").forEach((span) => {
span.textContent = new Date().getFullYear(); })`; the assigned number is
coerced to its decimal string. -/
def initFooterYear (year : Int) (doc : List YearElem) : List YearElem :=
  doc.map (fun el => if el.isJsYear then { el with text := toString year } else el)

/-! ## Write effects of initRevealOnScroll (part_000 lines 101-136)

Trace of the stores `initRevealOnScroll` performs, used to check the
claim that the boot sequence writes only to the DOM.  The final line of
the function, `window.__revealObserver = observer`, is a store to a
`window` global, not to any DOM attribute, class, style or text. -/

inductive Effect where
  | domClassAdd (id : Nat) (c : String)
  | domStyle (id : Nat) (prop value : String)
  | windowGlobal (gname : String)
  deriving DecidableEq, Repr

/-- Whether an effect writes DOM attributes, classes, styles or text. -/
def isDomWrite : Effect → Bool
  | .windowGlobal _ => false
  | _ => true

/-- The ordered list of stores performed by one run of
`initRevealOnScroll` (part_000): nothing when the guard is set or no
`[data-reveal]` element exists; the `is-visible` class adds under reduced
motion; otherwise the `transitionDelay` style writes followed by the
assignment to `window.__revealObserver`. -/
def initRevealWrites (reduced : Bool) (s : RevealState) : List Effect :=
  if s.observerSet then []
  else
    let elements := s.elems.filter (fun el => el.hasDataReveal)
    if elements.isEmpty then []
    else if reduced then
      elements.map (fun el => Effect.domClassAdd el.id "is-visible")
    else
      (elements.enum.map (fun p =>
        Effect.domStyle p.2.id "transitionDelay" (delayString p.1 p.2.revealDelayAttr)))
        ++ [Effect.windowGlobal "__revealObserver"]

/-! ## Helper lemmas -/

theorem mem_addClass_self (c : String) (cs : List String) : c ∈ addClass c cs := by
  unfold addClass
  by_cases h : c ∈ cs
  · simp [h]
  · simp [h]

theorem mem_addClass_of_mem (c d : String) (cs : List String) (h : d ∈ cs) :
    d ∈ addClass c cs := by
  unfold addClass
  by_cases hc : c ∈ cs <;> simp [hc, h]

theorem addClass_idem (c : String) (cs : List String) :
    addClass c (addClass c cs) = addClass c cs := by
  unfold addClass
  by_cases h : c ∈ cs <;> simp [h]

theorem not_mem_removeClass (c : String) (cs : List String) :
    c ∉ removeClass c cs := by
  unfold removeClass
  simp

theorem count_removeEventListener (l : Listener) (L : List Listener) :
    (removeEventListener l L).count l = L.count l - 1 := by
  induction L with
  | nil => simp [removeEventListener]
  | cons x xs ih =>
    by_cases h : x = l
    · subst h
      simp [removeEventListener, List.count_cons]
    · simp [removeEventListener, h, List.count_cons, ih, Ne.symm h]

theorem not_mem_removeEventListener_of_count_le_one (l : Listener) (L : List Listener)
    (h : L.count l ≤ 1) : l ∉ removeEventListener l L := by
  intro hmem
  have h1 : 1 ≤ (removeEventListener l L).count l := List.one_le_count_iff.mpr hmem
  have h2 : (removeEventListener l L).count l = L.count l - 1 :=
    count_removeEventListener l L
  omega

theorem on_eq_of_count_le_one (l : Listener) (L : List Listener)
    (h : L.count l ≤ 1) :
    «on» l L = removeEventListener l L ++ [l] := by
  unfold «on» addEventListener
  have hnm := not_mem_removeEventListener_of_count_le_one l L h
  simp [hnm]

theorem count_on_eq_one (l : Listener) (L : List Listener) (h : L.count l ≤ 1) :
    («on» l L).count l = 1 := by
  rw [on_eq_of_count_le_one l L h]
  have hnm := not_mem_removeEventListener_of_count_le_one l L h
  have h0 : (removeEventListener l L).count l = 0 := List.count_eq_zero.mpr hnm
  simp [List.count_append, h0]

theorem removeEventListener_append_singleton (l : Listener) (L : List Listener)
    (h : l ∉ L) : removeEventListener l (L ++ [l]) = L := by
  induction L with
  | nil => simp [removeEventListener]
  | cons x xs ih =>
    have hx : x ≠ l := by
      intro hxl
      exact h (by simp [hxl])
    have hxs : l ∉ xs := fun hm => h (by simp [hm])
    simp [removeEventListener, hx, ih hxs]

theorem currentSegment_ne_empty (pathname : String) : currentSegment pathname ≠ "" := by
  show (if (pathname.splitOn "/").getLastD "" = "" then "index.html"
    else (pathname.splitOn "/").getLastD "") ≠ ""
  by_cases h : (pathname.splitOn "/").getLastD "" = ""
  · rw [if_pos h]
    simp
  · rw [if_neg h]
    exact h

theorem markActiveNavLink_active_iff (current : String) (link : NavLink)
    (hc : current ≠ "") :
    ("is-active" ∈ (markActiveNavLink current link).classes ↔
      navNormalized link.href = current) := by
  have hcond : (navNormalized link.href = current ∨
      (navNormalized link.href = "index.html" ∧ (current = "" ∨ current = "index.html"))) ↔
      navNormalized link.href = current := by
    constructor
    · rintro (h | ⟨h1, h2 | h2⟩)
      · exact h
      · exact absurd h2 hc
      · rw [h1, h2]
    · exact Or.inl
  by_cases h : navNormalized link.href = current ∨
      (navNormalized link.href = "index.html" ∧ (current = "" ∨ current = "index.html"))
  · simp only [markActiveNavLink, if_pos h]
    simp [mem_addClass_self, hcond.mp h]
  · simp only [markActiveNavLink, if_neg h]
    constructor
    · intro hmem
      exact absurd hmem (not_mem_removeClass _ _)
    · intro heq
      exact absurd (hcond.mpr heq) h

theorem getD_map_eq {α : Type} [Inhabited α] (g : α → α) (l : List α) (i : Nat)
    (hi : i < l.length) :
    (l.map g).getD i default = g (l.getD i default) := by
  rw [List.getD_eq_getElem?_getD, List.getD_eq_getElem?_getD, List.getElem?_map,
    List.getElem?_eq_getElem hi]
  simp

theorem menuIsOpen_clickToggle (s : MenuState) :
    menuIsOpen (clickToggle s) = ! menuIsOpen s := by
  by_cases hd : s.dataOpen = some "true"
  · simp [clickToggle, menuIsOpen, boolString, hd]
  · simp [clickToggle, menuIsOpen, boolString, hd]

theorem revealedAt_step (tgt : Nat) (t : RevealState) (e : OEntry)
    (h : revealedAt tgt t) : revealedAt tgt (revealStep t e) := by
  intro y hy hid
  unfold revealStep at hy
  by_cases hi : e.isIntersecting = true
  · rw [if_pos hi] at hy
    simp only [List.mem_map] at hy
    obtain ⟨z, hz, hgz⟩ := hy
    by_cases hzid : z.id = e.target
    · rw [if_pos hzid] at hgz
      rw [← hgz]
      exact mem_addClass_self _ _
    · rw [if_neg hzid] at hgz
      rw [← hgz]
      refine h z hz ?_
      rw [← hgz] at hid
      exact hid
  · rw [if_neg hi] at hy
    exact h y hy hid

theorem revealedAt_step_self (t : RevealState) (e : OEntry)
    (hi : e.isIntersecting = true) : revealedAt e.target (revealStep t e) := by
  intro y hy hid
  unfold revealStep at hy
  rw [if_pos hi] at hy
  simp only [List.mem_map] at hy
  obtain ⟨z, hz, hgz⟩ := hy
  by_cases hzid : z.id = e.target
  · rw [if_pos hzid] at hgz
    rw [← hgz]
    exact mem_addClass_self _ _
  · rw [if_neg hzid] at hgz
    rw [← hgz] at hid
    exact absurd hid hzid

theorem revealedAt_callback (tgt : Nat) (entries : List OEntry) (t : RevealState)
    (h : revealedAt tgt t) : revealedAt tgt (revealCallback entries t) := by
  induction entries generalizing t with
  | nil => exact h
  | cons e rest ih => exact ih _ (revealedAt_step tgt t e h)

theorem not_in_observed_step (tgt : Nat) (t : RevealState) (e : OEntry)
    (h : tgt ∉ t.observed) : tgt ∉ (revealStep t e).observed := by
  unfold revealStep
  by_cases hi : e.isIntersecting = true
  · rw [if_pos hi]
    intro hmem
    exact h (List.mem_of_mem_filter hmem)
  · rw [if_neg hi]
    exact h

theorem not_in_observed_step_self (t : RevealState) (e : OEntry)
    (hi : e.isIntersecting = true) : e.target ∉ (revealStep t e).observed := by
  unfold revealStep
  rw [if_pos hi]
  intro hmem
  have hp := List.of_mem_filter hmem
  simp at hp

theorem not_in_observed_callback (tgt : Nat) (entries : List OEntry) (t : RevealState)
    (h : tgt ∉ t.observed) : tgt ∉ (revealCallback entries t).observed := by
  induction entries generalizing t with
  | nil => exact h
  | cons e rest ih => exact ih _ (not_in_observed_step tgt t e h)

theorem revealCallback_processes_mem (entries : List OEntry) (t : RevealState)
    (e : OEntry) (he : e ∈ entries) (hi : e.isIntersecting = true) :
    revealedAt e.target (revealCallback entries t) ∧
      e.target ∉ (revealCallback entries t).observed := by
  obtain ⟨l1, l2, rfl⟩ := List.append_of_mem he
  have hsplit : revealCallback (l1 ++ e :: l2) t =
      revealCallback l2 (revealStep (revealCallback l1 t) e) := by
    unfold revealCallback
    rw [List.foldl_append]
    rfl
  rw [hsplit]
  constructor
  · exact revealedAt_callback _ l2 _ (revealedAt_step_self _ e hi)
  · exact not_in_observed_callback _ l2 _ (not_in_observed_step_self _ e hi)

theorem initReveal_eq_of_set (reduced : Bool) (t : RevealState)
    (h : t.observerSet = true) : initRevealOnScroll reduced t = t := by
  unfold initRevealOnScroll
  rw [h]
  simp

theorem initReveal_eq_of_no_elements (reduced : Bool) (t : RevealState)
    (h : t.observerSet = false)
    (he : (t.elems.filter (fun el => el.hasDataReveal)).isEmpty = true) :
    initRevealOnScroll reduced t = t := by
  unfold initRevealOnScroll
  rw [h]
  simp [he]

theorem initReveal_eq_reduced (t : RevealState) (h : t.observerSet = false)
    (he : (t.elems.filter (fun el => el.hasDataReveal)).isEmpty = false) :
    initRevealOnScroll true t = { t with elems := revealAllVisible t.elems } := by
  unfold initRevealOnScroll
  rw [h]
  simp [he]

theorem initReveal_eq_observe (t : RevealState) (h : t.observerSet = false)
    (he : (t.elems.filter (fun el => el.hasDataReveal)).isEmpty = false) :
    initRevealOnScroll false t =
      { elems := applyDelays 0 t.elems,
        observed := (t.elems.filter (fun el => el.hasDataReveal)).map (fun el => el.id),
        observerSet := true } := by
  unfold initRevealOnScroll
  rw [h]
  simp [he]

theorem mem_observed_init (s : RevealState) (el : RevealElem)
    (hel : el ∈ s.elems) (hdr : el.hasDataReveal = true) (hns : s.observerSet = false) :
    el.id ∈ (initRevealOnScroll false s).observed := by
  have hmem : el ∈ s.elems.filter (fun el => el.hasDataReveal) :=
    List.mem_filter.mpr ⟨hel, hdr⟩
  have hne : (s.elems.filter (fun el => el.hasDataReveal)).isEmpty = false := by
    cases hh : (s.elems.filter (fun el => el.hasDataReveal)).isEmpty
    · rfl
    · rw [List.isEmpty_iff] at hh
      rw [hh] at hmem
      exact absurd hmem (List.not_mem_nil _)
  rw [initReveal_eq_observe s hns hne]
  exact List.mem_map.mpr ⟨el, hmem, rfl⟩

theorem revealVis_flag (el : RevealElem) :
    (revealVis el).hasDataReveal = el.hasDataReveal := by
  unfold revealVis
  by_cases h : el.hasDataReveal = true
  · rw [if_pos h]
  · rw [if_neg h]

theorem revealVis_idem (el : RevealElem) :
    revealVis (revealVis el) = revealVis el := by
  unfold revealVis
  by_cases h : el.hasDataReveal = true
  · simp [h, addClass_idem]
  · simp [h]

theorem revealAllVisible_idem (l : List RevealElem) :
    revealAllVisible (revealAllVisible l) = revealAllVisible l := by
  unfold revealAllVisible
  rw [List.map_map]
  induction l with
  | nil => rfl
  | cons x xs ih =>
    simp only [List.map_cons] at *
    rw [ih]
    show revealVis (revealVis x) :: _ = _
    rw [revealVis_idem]

theorem isEmpty_map {α β : Type} (f : α → β) (l : List α) :
    (l.map f).isEmpty = l.isEmpty := by
  cases l <;> rfl

theorem filter_revealAllVisible_isEmpty (l : List RevealElem) :
    ((revealAllVisible l).filter (fun el => el.hasDataReveal)).isEmpty =
      (l.filter (fun el => el.hasDataReveal)).isEmpty := by
  unfold revealAllVisible
  rw [List.filter_map]
  rw [isEmpty_map]
  have hfun : ((fun el => el.hasDataReveal) ∘ revealVis) = (fun el => el.hasDataReveal) := by
    funext el
    simp [Function.comp, revealVis_flag]
  rw [hfun]

/-! ## Claim theorems -/

/-- C10: the `on(target, type, handler, opts)` utility is idempotent on the
listener set: under the DOM invariant that a listener is registered at most
once, calling `on` twice leaves exactly the listener list that one call
leaves, and after a call the listener is registered exactly once. -/
theorem on_idempotent (l : Listener) (L : List Listener) (h : L.count l ≤ 1) :
    «on» l («on» l L) = «on» l L ∧ («on» l L).count l = 1 := by
  constructor
  · have h1 : «on» l L = removeEventListener l L ++ [l] := on_eq_of_count_le_one l L h
    have hnm := not_mem_removeEventListener_of_count_le_one l L h
    have hcount : («on» l L).count l ≤ 1 := by
      rw [count_on_eq_one l L h]
    have h2 : «on» l («on» l L) = removeEventListener l («on» l L) ++ [l] :=
      on_eq_of_count_le_one l _ hcount
    rw [h2, h1, removeEventListener_append_singleton l _ hnm]
  · exact count_on_eq_one l L h

/-- Witness for C10 at a concrete listener list. -/
theorem on_idempotent_witness :
    «on» ⟨"click", 0, false⟩ («on» ⟨"click", 0, false⟩ [⟨"scroll", 1, false⟩]) =
        «on» ⟨"click", 0, false⟩ [⟨"scroll", 1, false⟩] ∧
      («on» ⟨"click", 0, false⟩ [⟨"scroll", 1, false⟩]).count ⟨"click", 0, false⟩ = 1 :=
  on_idempotent ⟨"click", 0, false⟩ [⟨"scroll", 1, false⟩] (by decide)

/-- C1: when an element matches `outletSel` and the fetch succeeds with an
ok response, `injectPartial` replaces the placeholder (via `outerHTML`) by
the fetched HTML text, invokes the `after` callback exactly once
afterwards, and resolves to `true`. -/
theorem injectPartial_success (parse : String → Elem) (outletSel : String)
    (res : FetchResponse) (f : List Elem → List Elem) (doc : List Elem) (i : Nat)
    (hq : querySelector outletSel doc = some i) (hok : res.ok = true) :
    injectPartial parse outletSel (some res) (some f) doc =
      ⟨f (doc.set i (parse res.text)), 1, true⟩ := by
  unfold injectPartial
  rw [hq]
  simp [hok]

/-- Witness for C1 on a one-element document. -/
theorem injectPartial_success_witness :
    injectPartial (fun h => ⟨["[data-header]"], h⟩) "[data-header-include]"
        (some ⟨true, "<header>"⟩) (some id) [⟨["[data-header-include]"], "<div>"⟩] =
      ⟨id ([(⟨["[data-header-include]"], "<div>"⟩ : Elem)].set 0
        ((fun h => (⟨["[data-header]"], h⟩ : Elem)) "<header>")), 1, true⟩ :=
  injectPartial_success (fun h => ⟨["[data-header]"], h⟩) "[data-header-include]"
    ⟨true, "<header>"⟩ id [⟨["[data-header-include]"], "<div>"⟩] 0 (by decide) rfl

/-- C8: `injectPartial` always resolves to a boolean; it resolves `false`
exactly when no element matches the selector, the fetch rejects, or the
response is not ok, and in every `false` case the document is unchanged
and the `after` callback never ran. -/
theorem injectPartial_failure (parse : String → Elem) (outletSel : String)
    (fetchResult : Option FetchResponse) (after : Option (List Elem → List Elem))
    (doc : List Elem) :
    (( injectPartial parse outletSel fetchResult after doc).value = false ↔
      querySelector outletSel doc = none ∨ fetchResult = none ∨
        ∃ res, fetchResult = some res ∧ res.ok = false) ∧
    (( injectPartial parse outletSel fetchResult after doc).value = false →
      injectPartial parse outletSel fetchResult after doc = ⟨doc, 0, false⟩) := by
  unfold injectPartial
  cases hq : querySelector outletSel doc with
  | none => simp
  | some i =>
    cases fetchResult with
    | none => simp
    | some res =>
      by_cases hok : res.ok = true
      · cases after with
        | none => simp [hok]
        | some f => simp [hok]
      · simp only [Bool.not_eq_true] at hok
        simp [hok]

/-- Witness for C8 at a failing fetch. -/
theorem injectPartial_failure_witness :
    (( injectPartial (fun h => ⟨[], h⟩) "x" none none
        [(⟨["x"], "<div>"⟩ : Elem)]).value = false ↔
      querySelector "x" [(⟨["x"], "<div>"⟩ : Elem)] = none ∨
        (none : Option FetchResponse) = none ∨
        ∃ res, (none : Option FetchResponse) = some res ∧ res.ok = false) ∧
    (( injectPartial (fun h => ⟨[], h⟩) "x" none none
        [(⟨["x"], "<div>"⟩ : Elem)]).value = false →
      injectPartial (fun h => ⟨[], h⟩) "x" none none [(⟨["x"], "<div>"⟩ : Elem)] =
        ⟨[(⟨["x"], "<div>"⟩ : Elem)], 0, false⟩) :=
  injectPartial_failure (fun h => ⟨[], h⟩) "x" none none [(⟨["x"], "<div>"⟩ : Elem)]

/-- C2: after the boot sequence on a page whose header is present (whether
the header partial was injected or the inline fallback ran, the boot calls
`markActiveNav`), a nav link carries `is-active` iff its href with any
query string stripped equals the last path segment of the location (an
empty last segment is treated as `index.html`, which also makes an
`index.html` link active on the home page); every other nav link has
`is-active` removed. -/
theorem bootHeaderLinks_active_iff (injected : Bool) (pathname : String)
    (links : List NavLink) (i : Nat) (hi : i < links.length) :
    ("is-active" ∈ ((bootHeaderLinks injected true pathname links).getD i default).classes ↔
      navNormalized ((links.getD i default)).href = currentSegment pathname) := by
  have hb : bootHeaderLinks injected true pathname links =
      links.map (markActiveNavLink (currentSegment pathname)) := by
    unfold bootHeaderLinks markActiveNav
    cases injected <;> simp
  rw [hb, getD_map_eq _ _ _ hi]
  exact markActiveNavLink_active_iff _ _ (currentSegment_ne_empty pathname)

/-- Witness for C2 on a one-link header. -/
theorem bootHeaderLinks_active_iff_witness :
    ("is-active" ∈ ((bootHeaderLinks false true "/about.html"
        [⟨some "about.html", ["nav-link"]⟩]).getD 0 default).classes ↔
      navNormalized (([(⟨some "about.html", ["nav-link"]⟩ : NavLink)]).getD 0 default).href =
        currentSegment "/about.html") :=
  bootHeaderLinks_active_iff false "/about.html" [⟨some "about.html", ["nav-link"]⟩] 0
    (by decide)

/-- C3: on a document with both the mobile button and the mobile menu,
`initHeaderBehaviors` binds the toggle click handler; every click flips
the menu's open state, and after every click `aria-expanded` equals
`data-open`, under any sequence of click events. -/
theorem mobileMenu_click_flip_sync (s : MenuState) (n : Nat) :
    initHeaderBehaviors true true = some clickToggle ∧
    menuIsOpen (applyClicks (n + 1) s) = ! menuIsOpen (applyClicks n s) ∧
    (applyClicks (n + 1) s).ariaExpanded = (applyClicks (n + 1) s).dataOpen := by
  refine ⟨rfl, ?_, ?_⟩
  · exact menuIsOpen_clickToggle (applyClicks n s)
  · rfl

/-- C6: after `initFooterYear`, every `.js-year` element's text equals the
current year (the assigned number rendered in decimal), and every element
without the class is unchanged. -/
theorem initFooterYear_sets_year (year : Int) (doc : List YearElem) (i : Nat)
    (hi : i < doc.length) :
    ((doc.getD i default).isJsYear = true →
      ((initFooterYear year doc).getD i default).text = toString year) ∧
    ((doc.getD i default).isJsYear = false →
      (initFooterYear year doc).getD i default = doc.getD i default) := by
  unfold initFooterYear
  rw [getD_map_eq _ _ _ hi]
  set el := doc.getD i default with hel
  constructor
  · intro h
    simp [h]
  · intro h
    simp [h]

/-- Witness for C6 on a one-element footer. -/
theorem initFooterYear_sets_year_witness :
    ((([(⟨true, ""⟩ : YearElem)]).getD 0 default).isJsYear = true →
      ((initFooterYear 2026 [⟨true, ""⟩]).getD 0 default).text = toString (2026 : Int)) ∧
    ((([(⟨true, ""⟩ : YearElem)]).getD 0 default).isJsYear = false →
      (initFooterYear 2026 [⟨true, ""⟩]).getD 0 default =
        ([(⟨true, ""⟩ : YearElem)]).getD 0 default) :=
  initFooterYear_sets_year 2026 [⟨true, ""⟩] 0 (by decide)

/-- C4: after `initRevealOnScroll` runs (guard unset, reduced motion off),
every `[data-reveal]` element is observed by the IntersectionObserver,
and whenever the observer callback reports an element as intersecting,
the `is-visible` class is added to that element. -/
theorem reveal_on_intersect (s : RevealState) (el : RevealElem)
    (hel : el ∈ s.elems) (hdr : el.hasDataReveal = true) (hns : s.observerSet = false)
    (entries : List OEntry) (t : RevealState) (e : OEntry) (he : e ∈ entries)
    (hi : e.isIntersecting = true) (x : RevealElem)
    (hx : x ∈ (revealCallback entries t).elems) (hid : x.id = e.target) :
    el.id ∈ (initRevealOnScroll false s).observed ∧ "is-visible" ∈ x.classes := by
  constructor
  · exact mem_observed_init s el hel hdr hns
  · exact (revealCallback_processes_mem entries t e he hi).1 x hx hid

/-- Witness for C4 at a one-element page. -/
theorem reveal_on_intersect_witness :
    (1 : Nat) ∈ (initRevealOnScroll false
        ⟨[⟨1, true, none, "", []⟩], [], false⟩).observed ∧
      "is-visible" ∈ (["is-visible"] : List String) :=
  reveal_on_intersect ⟨[⟨1, true, none, "", []⟩], [], false⟩ ⟨1, true, none, "", []⟩
    (by decide) rfl rfl [⟨1, true⟩] ⟨[⟨1, true, none, "", []⟩], [1], true⟩ ⟨1, true⟩
    (by decide) rfl ⟨1, true, none, "", ["is-visible"]⟩ (by decide) rfl

/-- C5: a revealed element stays revealed and is unobserved: if every
element with a given id already carries `is-visible`, the observer
callback never removes it, and an intersecting target is removed from the
observed set by the callback that reveals it. -/
theorem reveal_once_and_stays (entries : List OEntry) (t : RevealState) (tgt : Nat)
    (hvis : revealedAt tgt t) (e : OEntry) (he : e ∈ entries)
    (hi : e.isIntersecting = true) :
    revealedAt tgt (revealCallback entries t) ∧
      e.target ∉ (revealCallback entries t).observed := by
  constructor
  · exact revealedAt_callback tgt entries t hvis
  · exact (revealCallback_processes_mem entries t e he hi).2

/-- Witness for C5 on an already revealed element. -/
theorem reveal_once_and_stays_witness :
    revealedAt 1 (revealCallback [⟨1, true⟩]
        ⟨[⟨1, true, none, "", ["is-visible"]⟩], [1], true⟩) ∧
      (1 : Nat) ∉ (revealCallback [⟨1, true⟩]
        ⟨[⟨1, true, none, "", ["is-visible"]⟩], [1], true⟩).observed :=
  reveal_once_and_stays [⟨1, true⟩] ⟨[⟨1, true, none, "", ["is-visible"]⟩], [1], true⟩ 1
    (by intro y hy hid
        simp only [List.mem_cons, List.not_mem_nil, or_false] at hy
        rw [hy]
        simp) ⟨1, true⟩ (by decide) rfl

/-- C7 counterexample: on a page with one `[data-reveal]` element and the
observer guard unset, the write trace of `initRevealOnScroll` contains a
store that is not a DOM write (the assignment to
`window.__revealObserver`), refuting the claim that every operation of
the boot sequence writes only DOM attributes, classes, styles and text. -/
theorem bootWrites_not_all_dom :
    ¬ (∀ e ∈ initRevealWrites false ⟨[⟨0, true, none, "", []⟩], [], false⟩,
        isDomWrite e = true) := by
  intro h
  have hw := h (Effect.windowGlobal "__revealObserver") (by decide)
  simp [isDomWrite] at hw

/-- C7 amended: every store performed by `initRevealOnScroll` is a DOM
write, except the single assignment that records the observer in the
`window.__revealObserver` global. -/
theorem initRevealWrites_dom_or_guard (reduced : Bool) (s : RevealState)
    (e : Effect) (he : e ∈ initRevealWrites reduced s) :
    isDomWrite e = true ∨ e = Effect.windowGlobal "__revealObserver" := by
  by_cases h1 : s.observerSet = true
  · simp [initRevealWrites, h1] at he
  · have h1' : s.observerSet = false := by
      cases hb : s.observerSet
      · rfl
      · exact absurd hb h1
    by_cases h2 : (s.elems.filter (fun el => el.hasDataReveal)).isEmpty = true
    · simp [initRevealWrites, h1', h2] at he
    · have h2' : (s.elems.filter (fun el => el.hasDataReveal)).isEmpty = false := by
        cases hb : (s.elems.filter (fun el => el.hasDataReveal)).isEmpty
        · rfl
        · exact absurd hb h2
      cases reduced with
      | true =>
        simp only [initRevealWrites, h1', h2'] at he
        simp only [Bool.false_eq_true, if_false, if_true] at he
        rw [List.mem_map] at he
        obtain ⟨el, _, hel⟩ := he
        left
        rw [← hel]
        rfl
      | false =>
        simp only [initRevealWrites, h1', h2'] at he
        simp only [Bool.false_eq_true, if_false] at he
        rw [List.mem_append] at he
        rcases he with he | he
        · rw [List.mem_map] at he
          obtain ⟨p, _, hp⟩ := he
          left
          rw [← hp]
          rfl
        · right
          simpa using he

/-- Witness for the C7 amended theorem at the guard store itself. -/
theorem initRevealWrites_dom_or_guard_witness :
    isDomWrite (Effect.windowGlobal "__revealObserver") = true ∨
      Effect.windowGlobal "__revealObserver" = Effect.windowGlobal "__revealObserver" :=
  initRevealWrites_dom_or_guard false ⟨[⟨0, true, none, "", []⟩], [], false⟩
    (Effect.windowGlobal "__revealObserver") (by decide)

/-- C9: once `initRevealOnScroll` has recorded its observer in
`window.__revealObserver`, any further call returns immediately and
changes nothing; in general running it twice equals running it once. -/
theorem initRevealOnScroll_idempotent (reduced : Bool) (s t : RevealState)
    (h : s.observerSet = true) :
    initRevealOnScroll reduced s = s ∧
      initRevealOnScroll reduced (initRevealOnScroll reduced t) =
        initRevealOnScroll reduced t := by
  refine ⟨initReveal_eq_of_set reduced s h, ?_⟩
  by_cases ht : t.observerSet = true
  · rw [initReveal_eq_of_set reduced t ht, initReveal_eq_of_set reduced t ht]
  · have ht' : t.observerSet = false := by
      cases hb : t.observerSet
      · rfl
      · exact absurd hb ht
    by_cases hemp : (t.elems.filter (fun el => el.hasDataReveal)).isEmpty = true
    · rw [initReveal_eq_of_no_elements reduced t ht' hemp,
        initReveal_eq_of_no_elements reduced t ht' hemp]
    · have hemp' : (t.elems.filter (fun el => el.hasDataReveal)).isEmpty = false := by
        cases hb : (t.elems.filter (fun el => el.hasDataReveal)).isEmpty
        · rfl
        · exact absurd hb hemp
      cases reduced with
      | true =>
        rw [initReveal_eq_reduced t ht' hemp']
        have hset : ({ t with elems := revealAllVisible t.elems } : RevealState).observerSet
            = false := ht'
        have hfil : (({ t with elems := revealAllVisible t.elems } :
            RevealState).elems.filter (fun el => el.hasDataReveal)).isEmpty = false := by
          show ((revealAllVisible t.elems).filter (fun el => el.hasDataReveal)).isEmpty = false
          rw [filter_revealAllVisible_isEmpty]
          exact hemp'
        rw [initReveal_eq_reduced _ hset hfil]
        show ({ t with elems := revealAllVisible (revealAllVisible t.elems) } : RevealState) = _
        rw [revealAllVisible_idem]
      | false =>
        rw [initReveal_eq_observe t ht' hemp']
        exact initReveal_eq_of_set false _ rfl

/-- Witness for C9 on a one-element page. -/
theorem initRevealOnScroll_idempotent_witness :
    initRevealOnScroll false ⟨[], [], true⟩ = ⟨[], [], true⟩ ∧
      initRevealOnScroll false (initRevealOnScroll false
          ⟨[⟨0, true, none, "", []⟩], [], false⟩) =
        initRevealOnScroll false ⟨[⟨0, true, none, "", []⟩], [], false⟩ :=
  initRevealOnScroll_idempotent false ⟨[], [], true⟩
    ⟨[⟨0, true, none, "", []⟩], [], false⟩ rfl

end TestAndTag
